import Mathlib

/-!
Verification of the openconcept propulsion-architecture builder
(`openconcept/architecting/builder/`): a shallow embedding of the
graph-assembly functions `create_output_sum` (utils.py),
`create_mech_group` (elements/mech.py), `create_electric_group`
(elements/electric.py) and `DynamicPropulsionArchitecture.setup`
(arch_group.py), together with theorems about the structure they build.

Modelling conventions:
* A vector of per-analysis-point values (length `nn` in the source) is a
  function `Signal := ℕ → ℚ`; entries beyond the vector length are unused.
* Graph nodes added by `add_subsystem` are recorded as `Node` values whose
  path is the absolute dotted path of the subsystem.
* Connections made by `group.connect(src, dst)` are recorded as `Conn`
  values holding exactly the strings passed to `connect` (which in the
  source are relative to the group the call is made on).
* Fallible assembly returns `Except`; the error value carries the list of
  nodes that had been created before the exception was raised, mirroring
  the mutation of the OpenMDAO group objects that the Python code performs
  before raising.
-/

namespace OCBuilder

/-- A per-analysis-point vector quantity (length-`nn` numpy vector). -/
abbrev Signal := ℕ → ℚ

/-- A connection as recorded by a `group.connect(src, dst)` call. -/
structure Conn where
  src : String
  dst : String
deriving DecidableEq, Repr

/-- Graph nodes, tagged by the kind of OpenMDAO component the source
instantiates. `execComp` keeps the expression string passed to
`om.ExecComp`. `balanceComp` is the unknown-plus-residual component of the
Balance Utility (see `throttle_from_power_balance` below). -/
inductive Node where
  | group (path : String)
  | inCollect (path : String)
  | turboshaft (path : String)
  | motorComp (path : String)
  | inverterComp (path : String)
  | mechBusComp (path : String)
  | powerSplit (path : String)
  | dcBusComp (path : String)
  | batteryComp (path : String)
  | generatorComp (path : String)
  | rectifierComp (path : String)
  | scalifyComp (path : String)
  | multiplyComp (path : String)
  | execComp (path : String) (expr : String)
  | addSubtract (path : String)
  | balanceComp (path : String) (comp : String) (n : ℕ) (guess : ℚ) (lhs rhs : String)
  | indepZero (path : String) (n : ℕ)
  | sumExecPass (path : String)
deriving DecidableEq, Repr

/-- `True` for the Balance Utility node only. -/
def Node.isBalanceB : Node → Bool
  | .balanceComp _ _ _ _ _ _ => true
  | _ => false

/-- `True` for nodes belonging to a battery or a DC engine chain
(battery, turboshaft, generator, rectifier). -/
def Node.isBatteryOrChainB : Node → Bool
  | .batteryComp _ => true
  | .turboshaft _ => true
  | .generatorComp _ => true
  | .rectifierComp _ => true
  | _ => false

/-! ## Aggregation utility (`utils.py`, `create_output_sum`) -/

/-- The kind of component `create_output_sum` adds:
zero inputs → `om.IndepVarComp` constant zero; one input → a pass-through
`om.ExecComp`; more → an `om.AddSubtractComp`. -/
inductive SumKind where
  | zeroSource
  | passThrough
  | addComp
deriving DecidableEq, Repr

/-- Which component `create_output_sum` instantiates, by input count
(utils.py lines 40-53). -/
def sumKind (numInputs : ℕ) : SumKind :=
  if numInputs = 0 then .zeroSource
  else if numInputs = 1 then .passThrough
  else .addComp

/-- The uniquely named input ports `sum_input_0 .. sum_input_{k-1}`
(utils.py line 37). -/
def sum_params (k : ℕ) : List String :=
  (List.range k).map (fun i => "sum_input_" ++ toString i)

/-- The connections `create_output_sum` makes (utils.py lines 55-56):
input `i` is wired to `<output>_sum.sum_input_i`, in the order supplied. -/
def create_output_sum_conns (output : String) (inputs : List String) : List Conn :=
  (inputs.zip (sum_params inputs.length)).map
    (fun p => ⟨p.1, output ++ "_sum." ++ p.2⟩)

/-- The node `create_output_sum` adds, with absolute path
`<groupPath>.<output>_sum` (group-less paths use `output ++ "_sum"`). -/
def output_sum_node (sumPath : String) (numInputs n : ℕ) : Node :=
  match sumKind numInputs with
  | .zeroSource => .indepZero sumPath n
  | .passThrough => .sumExecPass sumPath
  | .addComp => .addSubtract sumPath

/-- The value of the output signal of the component `create_output_sum`
builds: constant zero for no inputs (`IndepVarComp` with `val=np.tile(0.,n)`),
the single input for one input (`ExecComp` `out = sum_input_0`), the
elementwise sum otherwise (`AddSubtractComp`). -/
def create_output_sum_value (inputs : List Signal) : Signal :=
  match inputs with
  | [] => fun _ => 0
  | [x] => fun k => x k
  | xs => fun k => (xs.map (fun s => s k)).sum

/-! ## Element specs (`elements/mech.py`, `elements/electric.py` dataclasses).
Only the fields the builder reads are carried; numeric parameters that a
claim needs (the power ratings) are kept, the purely physical constants
(efficiencies, weights, costs) are not referenced by any assembly decision
and are elided. -/

/-- `Engine` dataclass (mech.py lines 48-57). -/
structure Engine where
  name : String
  power_rating : ℚ := 260
deriving DecidableEq, Repr

/-- `Motor` dataclass (mech.py lines 60-70). -/
structure Motor where
  name : String
  power_rating : ℚ := 260
deriving DecidableEq, Repr

/-- `Inverter` dataclass (mech.py lines 73-81). -/
structure Inverter where
  name : String
deriving DecidableEq, Repr

/-- `MechSplitter` dataclass (mech.py lines 84-92). -/
structure MechSplitter where
  name : String
  mech_DoH : ℚ := 1/2
deriving DecidableEq, Repr

/-- `MechBus` dataclass (mech.py lines 95-99). -/
structure MechBus where
  name : String
deriving DecidableEq, Repr

/-- The per-lane slice of `MechPowerElements` after the broadcast
normalisation of mech.py lines 132-141: the `i`-th entry of each of the
five element lists. -/
structure LaneSpec where
  engine : Option Engine
  motor : Option Motor
  inverter : Option Inverter
  mech_bus : Option MechBus
  mech_splitter : Option MechSplitter
deriving DecidableEq, Repr

/-- Errors raised by `create_mech_group`. -/
inductive MechError where
  /-- mech.py line 164: `Either engine or motor should be present for thrust group %d!` -/
  | engineOrMotorRequired (lane : ℕ)
  /-- mech.py lines 175-176: `engines and motors are added as inputs, therefore,
  mech_buses and mech_splitters must be provided as well` -/
  | busAndSplitterRequired
  /-- mech.py line 432: `Inverter is added but no Motor!` -/
  | inverterWithoutMotor
  /-- mech.py line 455: `No shaft power generated for thrust group %d!` -/
  | noShaftPower (lane : ℕ)
deriving DecidableEq, Repr

/-- Which of the three lane topologies a lane resolved to. -/
inductive LaneShape where
  | engineOnly
  | motorOnly
  | parallelHybrid
deriving DecidableEq, Repr

/-- Modelled from the spec: `throttle_from_power_balance` (the Balance
Utility, spec §4.2) is called from mech.py lines 332-339 and
electric.py lines 252-254 but its definition is not under `src/`.
Per the spec it introduces one new unknown per analysis point (the
throttle of `comp_name`, initial guess 0.5) and one residual equation
`available(throttle) − required = 0` per analysis point, and wires the
solved throttle into the element's throttle input port. The node path is a
modelling choice (`<group>.<comp>_throttle_balance`); the `n`, guess,
residual sides and the throttle wiring are the spec's words. -/
def throttle_from_power_balance (groupPath power_req power_avail comp_name : String)
    (n : ℕ) : List Node × List Conn :=
  let bal := groupPath ++ "." ++ comp_name ++ "_throttle_balance"
  ([.balanceComp bal comp_name n (1/2) power_avail power_req],
   [⟨power_avail, bal ++ ".lhs"⟩,
    ⟨power_req, bal ++ ".rhs"⟩,
    ⟨bal ++ ".throttle", groupPath ++ "." ++ comp_name ++ ".throttle"⟩])

/-- Modelled from the spec: the residual of the Balance Utility,
`available(throttle) − required`, one equation per analysis point. -/
def balance_residual (avail req : Signal) : Signal :=
  fun k => avail k - req k

/-- Modelled from the spec: `ElementMultiplyDivideComp`
(openconcept.utilities.math, not under `src/`) with all-multiply inputs
forms the elementwise product of its input vectors; it is used at mech.py
lines 359-364 to multiply throttle by the `propulsor_active` flag. -/
def element_multiply (inputs : List Signal) : Signal :=
  fun k => (inputs.map (fun s => s k)).prod

/-- `ScalifyComponent` (utils.py lines 108-129): output is the first entry
of the input vector. -/
def scalify_component (v : Signal) : ℚ := v 0

/-- The `om.ExecComp` of mech.py lines 223-230 (OEI lane):
`tot_rated_power = engine_rated_power + active_flag * motor_rated_power`. -/
def exec_sum_rated_power_oei (engine_rated_power active_flag motor_rated_power : ℚ) : ℚ :=
  engine_rated_power + active_flag * motor_rated_power

/-- The `om.ExecComp` of mech.py lines 239-245 (all-engines-active lane):
`tot_rated_power = engine_rated_power + motor_rated_power`. -/
def exec_sum_rated_power (engine_rated_power motor_rated_power : ℚ) : ℚ :=
  engine_rated_power + motor_rated_power

/-- The `om.ExecComp` of mech.py lines 265-271:
`tot_shaft_power = throttle_vec * total_rated_power` (elementwise). -/
def exec_eng_motor_shaft_power (throttle_vec : Signal) (total_rated_power : ℚ) : Signal :=
  fun k => throttle_vec k * total_rated_power

/-- The `om.ExecComp` of mech.py lines 294-300 (OEI lane):
`split_fraction_vec = active_flag_vec * mech_DoH_vec` (elementwise). -/
def exec_get_split_fraction (active_flag_vec mech_DoH_vec : Signal) : Signal :=
  fun k => active_flag_vec k * mech_DoH_vec k

/-- The total shaft power of a parallel-hybrid lane as wired by mech.py:
the `eng_motor_shaft_power` ExecComp fed with the global throttle vector
and the `sum_rated_power` output, whose OEI variant (lane index 1) takes
the scalified `propulsor_active` flag (mech.py lines 212-277). -/
def hybrid_tot_shaft_power (i : ℕ) (throttle active : Signal)
    (eng_rating motor_rating : ℚ) : Signal :=
  exec_eng_motor_shaft_power throttle
    (if i = 1 then
      exec_sum_rated_power_oei eng_rating (scalify_component active) motor_rating
    else
      exec_sum_rated_power eng_rating motor_rating)

/-! ## Per-lane assembly (`create_mech_group` loop body, mech.py 159-458).

Node paths are absolute (`mech.mech<i+1>.<name>`); connections record the
exact strings passed to `connect` on the group the source calls it on
(`mech_thrust_group.connect` uses lane-relative names,
`mech_group.connect` uses `mech`-relative names). -/

/-- The result of building one lane. -/
structure LaneOut where
  shape : LaneShape
  nodes : List Node
  conns : List Conn
  fuel_flow_outputs : List String
  weight_outputs : List String
  electric_load_outputs : List String
  throttle_param : String
  shaft_power_out_param : String
  shaft_speed_out_param : String
  rated_power_out_param : String
deriving DecidableEq, Repr

/-- The lane subgroup name `mech%d % (i+1)` (mech.py line 167). -/
def laneGroupName (i : ℕ) : String := "mech" ++ toString (i + 1)

/-- Engine-only lane (mech.py lines 350-386, usual conventional
architecture), including the `failedengine` OEI multiplier on lane
index 1 and the final throttle connection of line 451. -/
def engineOnlyLaneOut (i : ℕ) (e : Engine) (_nn : ℕ) : LaneOut :=
  let g := laneGroupName i
  let p := "mech." ++ g
  { shape := .engineOnly
    nodes :=
      [.group p, .inCollect (p ++ ".eng_in_collect")]
      ++ (if i = 1 then [.multiplyComp (p ++ ".failedengine")] else [])
      ++ [.turboshaft (p ++ "." ++ e.name)]
    conns :=
      (if i = 1 then
        [⟨"propulsor_active_pass", g ++ ".failedengine.propulsor_active_flag"⟩]
      else [])
      ++ [⟨"rating_pass", e.name ++ ".shaft_power_rating"⟩]
      ++ (if i = 1 then
        [⟨"failedengine.eng2throttle", e.name ++ ".throttle"⟩]
      else [])
      ++ [⟨"throttle_pass",
           if i = 1 then g ++ ".failedengine.throttle_vec" else g ++ "." ++ e.name ++ ".throttle"⟩]
    fuel_flow_outputs := [g ++ "." ++ e.name ++ ".fuel_flow"]
    weight_outputs := [g ++ "." ++ e.name ++ ".component_weight"]
    electric_load_outputs := []
    throttle_param :=
      if i = 1 then g ++ ".failedengine.throttle_vec" else g ++ "." ++ e.name ++ ".throttle"
    shaft_power_out_param := "mech." ++ g ++ "." ++ e.name ++ ".shaft_power_out"
    shaft_speed_out_param := "mech." ++ g ++ ".output_rpm_pass"
    rated_power_out_param := "mech." ++ g ++ ".rating_pass" }

/-- Motor-only lane (mech.py lines 389-428 plus the inverter block of
lines 430-448 and the throttle connection of line 451). -/
def motorOnlyLaneOut (i : ℕ) (m : Motor) (inverter : Option Inverter) (_nn : ℕ) : LaneOut :=
  let g := laneGroupName i
  let p := "mech." ++ g
  { shape := .motorOnly
    nodes :=
      [.group p, .inCollect (p ++ ".motor_in_collect")]
      ++ (if i = 1 then [.multiplyComp (p ++ ".failedmotor")] else [])
      ++ [.motorComp (p ++ "." ++ m.name)]
      ++ (match inverter with
          | some inv => [.inverterComp (p ++ "." ++ inv.name)]
          | none => [])
    conns :=
      (if i = 1 then
        [⟨"propulsor_active_pass", g ++ ".failedmotor.propulsor_active_flag"⟩]
      else [])
      ++ [⟨"rating_pass", m.name ++ ".elec_power_rating"⟩]
      ++ (if i = 1 then
        [⟨"failedmotor.motor2throttle", m.name ++ ".throttle"⟩]
      else [])
      ++ (match inverter with
          | some inv =>
            [⟨"rating_pass", inv.name ++ ".elec_power_rating"⟩,
             ⟨m.name ++ ".elec_load", inv.name ++ ".elec_power_out"⟩]
          | none => [])
      ++ [⟨"throttle_pass",
           if i = 1 then g ++ ".failedmotor.throttle_vec" else g ++ "." ++ m.name ++ ".throttle"⟩]
    fuel_flow_outputs := []
    weight_outputs :=
      [g ++ "." ++ m.name ++ ".component_weight"]
      ++ (match inverter with
          | some inv => [g ++ "." ++ inv.name ++ ".component_weight"]
          | none => [])
    electric_load_outputs :=
      match inverter with
      | some inv => [g ++ "." ++ inv.name ++ ".elec_power_in"]
      | none => [g ++ "." ++ m.name ++ ".elec_load"]
    throttle_param :=
      if i = 1 then g ++ ".failedmotor.throttle_vec" else g ++ "." ++ m.name ++ ".throttle"
    shaft_power_out_param := "mech." ++ g ++ "." ++ m.name ++ ".shaft_power_out"
    shaft_speed_out_param := "mech." ++ g ++ ".output_rpm_pass"
    rated_power_out_param := "mech." ++ g ++ ".rating_pass" }

/-- Parallel-hybrid lane (mech.py lines 173-347: engine and motor with
mechanical bus and splitter, the OEI-scalified rated-power summation, the
shaft-power ExecComp, the split-fraction wiring, the two Balance-Utility
calls of lines 332-339), together with the inverter block of lines
430-448 and the throttle connection of line 451. -/
def hybridLaneOut (i : ℕ) (e : Engine) (m : Motor) (inverter : Option Inverter)
    (b : MechBus) (s : MechSplitter) (nn : ℕ) : LaneOut :=
  let g := laneGroupName i
  let p := "mech." ++ g
  let engBal := throttle_from_power_balance g (s.name ++ ".power_out_B")
    (e.name ++ ".shaft_power_out") e.name nn
  let motBal := throttle_from_power_balance g (s.name ++ ".power_out_A")
    (m.name ++ ".shaft_power_out") m.name nn
  { shape := .parallelHybrid
    nodes :=
      [.group p, .inCollect (p ++ ".eng_in_collect"), .turboshaft (p ++ "." ++ e.name),
       .inCollect (p ++ ".motor_in_collect"), .motorComp (p ++ "." ++ m.name)]
      ++ (if i = 1 then
        [.scalifyComp (p ++ ".scalify_active_input"),
         .execComp (p ++ ".sum_rated_power")
           "tot_rated_power = engine_rated_power + active_flag * motor_rated_power"]
      else
        [.execComp (p ++ ".sum_rated_power")
           "tot_rated_power = engine_rated_power + motor_rated_power"])
      ++ [.addSubtract (p ++ ".sizing_rated_power"),
          .execComp (p ++ ".eng_motor_shaft_power")
            "tot_shaft_power = throttle_vec * total_rated_power",
          .mechBusComp (p ++ "." ++ b.name),
          .inCollect (p ++ ".splitter_in_collect")]
      ++ (if i = 1 then
        [.execComp (p ++ ".get_split_fraction")
           "split_fraction_vec = active_flag_vec * mech_DoH_vec"]
      else [])
      ++ [.powerSplit (p ++ "." ++ s.name)]
      ++ engBal.1 ++ motBal.1
      ++ (match inverter with
          | some inv => [.inverterComp (p ++ "." ++ inv.name)]
          | none => [])
    conns :=
      [⟨"eng_rating_pass", e.name ++ ".shaft_power_rating"⟩,
       ⟨"motor_rating_pass", m.name ++ ".elec_power_rating"⟩]
      ++ (if i = 1 then
        [⟨"propulsor_active_pass", g ++ ".scalify_active_input.propulsor_active_vector"⟩,
         ⟨"eng_rating_pass", "sum_rated_power.engine_rated_power"⟩,
         ⟨"motor_rating_pass", "sum_rated_power.motor_rated_power"⟩,
         ⟨"scalify_active_input.propulsor_active_scalar", "sum_rated_power.active_flag"⟩]
      else
        [⟨"eng_rating_pass", "sum_rated_power.engine_rated_power"⟩,
         ⟨"motor_rating_pass", "sum_rated_power.motor_rated_power"⟩])
      ++ [⟨"eng_rating_pass", "sizing_rated_power." ++ e.name ++ "_rated_power"⟩,
          ⟨"motor_rating_pass", "sizing_rated_power." ++ m.name ++ "_rated_power"⟩,
          ⟨"sum_rated_power.tot_rated_power", "eng_motor_shaft_power.total_rated_power"⟩,
          ⟨"eng_motor_shaft_power.tot_shaft_power", b.name ++ ".shaft_power_in"⟩]
      ++ (if i = 1 then
        [⟨"mech_DoH_pass", "get_split_fraction.mech_DoH_vec"⟩,
         ⟨"propulsor_active_pass", g ++ ".get_split_fraction.active_flag_vec"⟩,
         ⟨"get_split_fraction.split_fraction_vec", s.name ++ ".power_split_fraction"⟩]
      else
        [⟨"mech_DoH_pass", s.name ++ ".power_split_fraction"⟩])
      ++ [⟨"eng_motor_shaft_power.tot_shaft_power", s.name ++ ".power_in"⟩]
      ++ engBal.2 ++ motBal.2
      ++ (match inverter with
          | some inv =>
            [⟨"motor_rating_pass", inv.name ++ ".elec_power_rating"⟩,
             ⟨m.name ++ ".elec_load", inv.name ++ ".elec_power_out"⟩]
          | none => [])
      ++ [⟨"throttle_pass", g ++ ".eng_motor_shaft_power.throttle_vec"⟩]
    fuel_flow_outputs := [g ++ "." ++ e.name ++ ".fuel_flow"]
    weight_outputs :=
      [g ++ "." ++ e.name ++ ".component_weight",
       g ++ "." ++ m.name ++ ".component_weight",
       g ++ "." ++ s.name ++ ".component_weight"]
      ++ (match inverter with
          | some inv => [g ++ "." ++ inv.name ++ ".component_weight"]
          | none => [])
    electric_load_outputs :=
      match inverter with
      | some inv => [g ++ "." ++ inv.name ++ ".elec_power_in"]
      | none => [g ++ "." ++ m.name ++ ".elec_load"]
    throttle_param := g ++ ".eng_motor_shaft_power.throttle_vec"
    shaft_power_out_param := "mech." ++ g ++ "." ++ b.name ++ ".shaft_power_out"
    shaft_speed_out_param := "mech." ++ g ++ "." ++ b.name ++ ".output_rpm"
    rated_power_out_param := "mech." ++ g ++ ".sizing_rated_power.tot_rated_power" }

/-- The per-lane dispatch of `create_mech_group` (mech.py lines 159-451):
raises when neither engine nor motor is present (line 164), when both are
present without bus or splitter (lines 174-176), and when an inverter is
supplied without a motor (lines 430-432); otherwise builds exactly one of
the three lane topologies. -/
def build_mech_lane (i : ℕ) (ls : LaneSpec) (nn : ℕ) : Except MechError LaneOut :=
  match ls.engine, ls.motor with
  | none, none => .error (.engineOrMotorRequired i)
  | some e, some m =>
    match ls.mech_bus, ls.mech_splitter with
    | some b, some s => .ok (hybridLaneOut i e m ls.inverter b s nn)
    | _, _ => .error .busAndSplitterRequired
  | some e, none =>
    match ls.inverter with
    | some _ => .error .inverterWithoutMotor
    | none => .ok (engineOnlyLaneOut i e nn)
  | none, some m => .ok (motorOnlyLaneOut i m ls.inverter nn)

/-- The lane loop of `create_mech_group`, threading the lane index. -/
def build_lanes (nn : ℕ) : List LaneSpec → ℕ → Except MechError (List LaneOut)
  | [], _ => .ok []
  | ls :: rest, i =>
    match build_mech_lane i ls nn with
    | .error err => .error err
    | .ok lo =>
      match build_lanes nn rest (i + 1) with
      | .error err => .error err
      | .ok los => .ok (lo :: los)

/-- The result of `create_mech_group`. -/
structure MechOut where
  lane_outs : List LaneOut
  nodes : List Node
  conns : List Conn
  fuel_flow_outputs : List String
  weight_outputs : List String
  electric_load_outputs : List String
  electric_power_needed : Bool
deriving DecidableEq, Repr

/-- `create_mech_group` (mech.py lines 116-468) over the per-lane view of
the spec: the `mech` group with its input collector, the per-lane
subgraphs, the three aggregate sums (lines 461-463), and the
`electric_power_needed` flag `len(electric_load_outputs) > 0`
(line 466). -/
def create_mech_group (lanes : List LaneSpec) (nn : ℕ) : Except MechError MechOut :=
  match build_lanes nn lanes 0 with
  | .error err => .error err
  | .ok los =>
    let fuel := (los.map (fun lo => lo.fuel_flow_outputs)).flatten
    let weight := (los.map (fun lo => lo.weight_outputs)).flatten
    let elec := (los.map (fun lo => lo.electric_load_outputs)).flatten
    .ok
      { lane_outs := los
        nodes :=
          [.group ("mech"), .inCollect ("mech.mech_in_collect")]
          ++ (los.map (fun lo => lo.nodes)).flatten
          ++ [output_sum_node ("mech.fuel_flow_sum") fuel.length nn,
              output_sum_node ("mech.subsystem_weight_sum") weight.length 1,
              output_sum_node ("mech.motors_elec_power_sum") elec.length nn]
        conns :=
          (los.map (fun lo => lo.conns)).flatten
          ++ create_output_sum_conns ("fuel_flow") fuel
          ++ create_output_sum_conns ("subsystem_weight") weight
          ++ create_output_sum_conns ("motors_elec_power") elec
        fuel_flow_outputs := fuel
        weight_outputs := weight
        electric_load_outputs := elec
        electric_power_needed := decide (0 < elec.length) }

/-! ## Electrical layer (`elements/electric.py`, `create_electric_group`).

The builder is split into the sequential stages of the source function;
an error carries the list of nodes that had already been added to the
model when the exception was raised (the `elec` group itself and its
input collector are created at lines 124-131, before any check). -/

/-- `DCBus` dataclass (electric.py lines 44-47). -/
structure DCBus where
  name : String
deriving DecidableEq, Repr

/-- `ElecSplitter` dataclass (electric.py lines 50-56). -/
structure ElecSplitter where
  name : String
  elec_DoH : ℚ := 1/2
deriving DecidableEq, Repr

/-- `Batteries` dataclass (electric.py lines 59-68). -/
structure Batteries where
  name : String
  weight : ℚ := 1000
deriving DecidableEq, Repr

/-- `Generator` dataclass (electric.py lines 71-80). -/
structure Generator where
  name : String
deriving DecidableEq, Repr

/-- `Rectifier` dataclass (electric.py lines 83-91). -/
structure Rectifier where
  name : String
deriving DecidableEq, Repr

/-- `DCEngineChain = Tuple[Engine, Generator, Rectifier]`
(electric.py line 94). -/
structure DCEngineChain where
  engine : Engine
  generator : Generator
  rectifier : Rectifier
deriving DecidableEq, Repr

/-- The `batteries` field of `ElectricPowerElements`
(`Union[Batteries, List[Batteries]] = None`, electric.py line 104):
absent, a single pack, or a Python list of packs. -/
inductive BatteriesSpec where
  | bnone
  | single (b : Batteries)
  | blist (bs : List Batteries)
deriving DecidableEq, Repr

/-- `ElectricPowerElements` dataclass (electric.py lines 98-106).
`engines_ac` records only whether an AC chain was supplied (its contents
are never read: electric.py lines 256-257 raise immediately). -/
structure ElectricPowerElements where
  dc_bus : Option DCBus := none
  splitter : Option ElecSplitter := none
  batteries : BatteriesSpec := .bnone
  engines_dc : Option DCEngineChain := none
  engines_ac : Bool := false
deriving DecidableEq, Repr

/-- Errors raised by `create_electric_group`. -/
inductive ElecError where
  /-- electric.py line 144: `dc_bus is required with a splitter` -/
  | dcBusRequiredWithSplitter
  /-- electric.py line 147: `both engines and batteries are required with
  splitter in ElectricPowerElements` -/
  | enginesAndBatteriesRequiredWithSplitter
  /-- electric.py lines 169-170: `for one Battery pack, use
  batteries=Batteries(...) instead of [Batteries(...)]` -/
  | singleBatteryListError
  /-- electric.py line 172: `multiple battery pack design is not implemented yet` -/
  | multipleBatteriesNotImplemented
  /-- electric.py line 174: `Battery pack list cannot be empty` -/
  | emptyBatteryList
  /-- electric.py line 195: `raise RuntimeWarning("motors AC power load should
  not be connected directly to Battery DC power supply")` -/
  | batteryWithoutDCBusWarning
  /-- A Python `UnboundLocalError`: the named local variable is read before
  any assignment to it executed (`eng_chain_req_power_out` at line 252 when
  no splitter branch ran, `battery_req_power_out` at line 200). -/
  | pythonNameError (localVar : String)
  /-- electric.py line 257: `AC architectures not implemented yet!` -/
  | acNotImplemented
  /-- electric.py line 261: `Cannot connect electric load!` -/
  | cannotConnectElecLoad
deriving DecidableEq, Repr

/-- The in-progress assembly state of `create_electric_group`: the local
variables of the Python function. `battery_req` / `eng_chain_req` model
the locals `battery_req_power_out` / `eng_chain_req_power_out`, which are
assigned only inside the splitter branch. -/
structure EState where
  nodes : List Node
  conns : List Conn
  elec_load_input : Option String
  battery_req : Option String
  eng_chain_req : Option String
  fuel_flow_outputs : List String
  weight_outputs : List String
  soc_outputs : List String
deriving DecidableEq, Repr

/-- The successful result of `create_electric_group`. -/
structure ElecOut where
  nodes : List Node
  conns : List Conn
  elec_load_input : String
  fuel_flow_outputs : List String
  weight_outputs : List String
  soc_outputs : List String
deriving DecidableEq, Repr

/-- electric.py lines 124-140: the `elec` group, its input collector, and
(when present) the DC bus, which also sets `elec_load_input` to the bus's
`elec_power_out`. -/
def elec_init (e : ElectricPowerElements) : EState :=
  let base : List Node := [.group ("elec"), .inCollect ("elec.elec_in_collect")]
  match e.dc_bus with
  | some b =>
    { nodes := base ++ [.dcBusComp ("elec." ++ b.name)]
      conns := []
      elec_load_input := some (b.name ++ ".elec_power_out")
      battery_req := none, eng_chain_req := none
      fuel_flow_outputs := [], weight_outputs := [], soc_outputs := [] }
  | none =>
    { nodes := base, conns := []
      elec_load_input := none
      battery_req := none, eng_chain_req := none
      fuel_flow_outputs := [], weight_outputs := [], soc_outputs := [] }

/-- electric.py lines 142-164: the splitter branch. A splitter without a
DC bus, or without both a DC engine chain and batteries, raises; otherwise
the splitter input collector and the `PowerSplit` are added and the two
required-power locals are assigned. -/
def elec_stage_splitter (e : ElectricPowerElements) (st : EState) :
    Except (List Node × ElecError) EState :=
  match e.splitter with
  | none => .ok st
  | some s =>
    match e.dc_bus with
    | none => .error (st.nodes, .dcBusRequiredWithSplitter)
    | some b =>
      match e.engines_dc with
      | none => .error (st.nodes, .enginesAndBatteriesRequiredWithSplitter)
      | some _ =>
        match e.batteries with
        | .bnone => .error (st.nodes, .enginesAndBatteriesRequiredWithSplitter)
        | _ =>
          .ok { st with
            nodes := st.nodes ++
              [.inCollect ("elec.splitter_in_collect"), .powerSplit ("elec." ++ s.name)]
            conns := st.conns ++
              [⟨"elec_DoH_pass", s.name ++ ".power_split_fraction"⟩,
               ⟨b.name ++ ".elec_power_in", s.name ++ ".power_in"⟩]
            battery_req := some (s.name ++ ".power_out_A")
            eng_chain_req := some (s.name ++ ".power_out_B")
            weight_outputs := st.weight_outputs ++ [s.name ++ ".component_weight"] }

/-- electric.py lines 166-203: the battery list check (a length-1 list, a
longer list and an empty list all raise) and the battery branch. With a
battery but no DC bus the source assigns `elec_load_input` and then raises
a `RuntimeWarning` (line 195); with a bus the load reaches the battery
either straight from the bus or from the splitter's A output. -/
def elec_stage_batteries (e : ElectricPowerElements) (st : EState) :
    Except (List Node × ElecError) EState :=
  match e.batteries with
  | .blist bs =>
    if bs.length = 1 then .error (st.nodes, .singleBatteryListError)
    else if 1 < bs.length then .error (st.nodes, .multipleBatteriesNotImplemented)
    else .error (st.nodes, .emptyBatteryList)
  | .bnone => .ok st
  | .single b =>
    let nodes1 := st.nodes ++
      [.inCollect ("elec.bat_in_collect"), .batteryComp ("elec." ++ b.name)]
    let weight1 := st.weight_outputs ++ ["weight_pass"]
    let soc1 := st.soc_outputs ++ [b.name ++ ".SOC"]
    match e.dc_bus with
    | none => .error (nodes1, .batteryWithoutDCBusWarning)
    | some bus =>
      match e.splitter with
      | none =>
        .ok { st with
          nodes := nodes1, weight_outputs := weight1, soc_outputs := soc1
          conns := st.conns ++
            [⟨bus.name ++ ".elec_power_in", b.name ++ ".elec_load"⟩,
             ⟨"weight_pass", b.name ++ ".battery_weight"⟩,
             ⟨"duration_pass", b.name ++ ".duration"⟩] }
      | some _ =>
        match st.battery_req with
        | none => .error (nodes1, .pythonNameError ("battery_req_power_out"))
        | some req =>
          .ok { st with
            nodes := nodes1, weight_outputs := weight1, soc_outputs := soc1
            conns := st.conns ++
              [⟨req, b.name ++ ".elec_load"⟩,
               ⟨"weight_pass", b.name ++ ".battery_weight"⟩,
               ⟨"duration_pass", b.name ++ ".duration"⟩] }

/-- electric.py lines 205-254: the DC engine chain branch. The engine,
generator and rectifier are added and wired; then line 252 reads the local
`eng_chain_req_power_out`, which was assigned only inside the splitter
branch — without a splitter this is a Python `UnboundLocalError`. With it,
the Balance Utility solves the chain engine's throttle. -/
def elec_stage_engines_dc (e : ElectricPowerElements) (nn : ℕ) (st : EState) :
    Except (List Node × ElecError) EState :=
  match e.engines_dc with
  | none => .ok st
  | some ch =>
    let nodes1 := st.nodes ++
      [.inCollect ("elec.eng_in_collect"), .turboshaft ("elec." ++ ch.engine.name),
       .generatorComp ("elec." ++ ch.generator.name),
       .rectifierComp ("elec." ++ ch.rectifier.name)]
    let conns1 := st.conns ++
      [⟨"rating_pass", ch.engine.name ++ ".shaft_power_rating"⟩,
       ⟨"rating_pass", ch.generator.name ++ ".elec_power_rating"⟩,
       ⟨ch.engine.name ++ ".shaft_power_out", ch.generator.name ++ ".shaft_power_in"⟩,
       ⟨"rating_pass", ch.rectifier.name ++ ".elec_power_rating"⟩,
       ⟨ch.generator.name ++ ".elec_power_out", ch.rectifier.name ++ ".elec_power_in"⟩]
    let fuel1 := st.fuel_flow_outputs ++ [ch.engine.name ++ ".fuel_flow"]
    let weight1 := st.weight_outputs ++
      [ch.engine.name ++ ".component_weight", ch.generator.name ++ ".component_weight",
       ch.rectifier.name ++ ".component_weight"]
    match st.eng_chain_req with
    | none => .error (nodes1, .pythonNameError ("eng_chain_req_power_out"))
    | some req =>
      let bal := throttle_from_power_balance ("elec") req
        (ch.rectifier.name ++ ".elec_power_out") ch.engine.name nn
      .ok { st with
        nodes := nodes1 ++ bal.1
        conns := conns1 ++ bal.2
        fuel_flow_outputs := fuel1
        weight_outputs := weight1 }

/-- electric.py lines 256-257: any AC engine chain raises
`NotImplementedError`. -/
def elec_stage_ac (e : ElectricPowerElements) (st : EState) :
    Except (List Node × ElecError) EState :=
  if e.engines_ac then .error (st.nodes, .acNotImplemented) else .ok st

/-- electric.py lines 259-268: the incoming electrical load is connected
(raising when no load input was ever set), and the three aggregate sums
are created. -/
def elec_stage_load (st : EState) (nn : ℕ) :
    Except (List Node × ElecError) ElecOut :=
  match st.elec_load_input with
  | none => .error (st.nodes, .cannotConnectElecLoad)
  | some inp =>
    .ok
      { nodes := st.nodes ++
          [output_sum_node ("elec.fuel_flow_sum") st.fuel_flow_outputs.length nn,
           output_sum_node ("elec.subsystem_weight_sum") st.weight_outputs.length 1,
           output_sum_node ("elec.SOC_sum") st.soc_outputs.length nn]
        conns := st.conns ++
          [⟨"mech.motors_elec_power", "elec." ++ inp⟩]
          ++ create_output_sum_conns ("fuel_flow") st.fuel_flow_outputs
          ++ create_output_sum_conns ("subsystem_weight") st.weight_outputs
          ++ create_output_sum_conns ("SOC") st.soc_outputs
        elec_load_input := inp
        fuel_flow_outputs := st.fuel_flow_outputs
        weight_outputs := st.weight_outputs
        soc_outputs := st.soc_outputs }

/-- `create_electric_group` (electric.py lines 108-270), as the sequence
of its stages. On error the first component of the error value is the list
of nodes that had been created when the exception was raised. -/
def create_electric_group (e : ElectricPowerElements) (nn : ℕ) :
    Except (List Node × ElecError) ElecOut :=
  match elec_stage_splitter e (elec_init e) with
  | .error err => .error err
  | .ok st1 =>
    match elec_stage_batteries e st1 with
    | .error err => .error err
    | .ok st2 =>
      match elec_stage_engines_dc e nn st2 with
      | .error err => .error err
      | .ok st3 =>
        match elec_stage_ac e st3 with
        | .error err => .error err
        | .ok st4 => elec_stage_load st4 nn

/-! ## Top-level assembler (`arch_group.py`, `DynamicPropulsionArchitecture.setup`)
and the broadcast normalisation of `MechPowerElements`. -/

/-- `Propeller` dataclass (elements/thrust.py). -/
structure Propeller where
  name : String
deriving DecidableEq, Repr

/-- `Gearbox` dataclass (elements/thrust.py). -/
structure Gearbox where
  name : String
deriving DecidableEq, Repr

/-- `ThrustGenElements` (elements/thrust.py): propeller list plus an
optional parallel gearbox list. -/
structure ThrustGenElements where
  propellers : List Propeller
  gearboxes : Option (List (Option Gearbox)) := none
deriving DecidableEq, Repr

/-- A broadcast-or-list field of `MechPowerElements`: `None`, a single
element replicated over all lanes, or an explicit per-lane list
(mech.py lines 110-114 and the normalisation of lines 132-141). -/
inductive Broadcast (α : Type) where
  | bnone
  | single (a : α)
  | blist (xs : List (Option α))
deriving DecidableEq, Repr

/-- The `i`-th entry after the normalisation of mech.py lines 132-141:
`None` and a bare element are replicated over every lane; an explicit list
is indexed (indexing past its end is a Python `IndexError` and is modelled
as an absent element). -/
def Broadcast.entry {α : Type} (b : Broadcast α) (i : ℕ) : Option α :=
  match b with
  | .bnone => none
  | .single a => some a
  | .blist xs => (xs.getD i none)

/-- `MechPowerElements` dataclass (mech.py lines 102-114). -/
structure MechPowerElements where
  engines : Broadcast Engine := .bnone
  motors : Broadcast Motor := .bnone
  inverters : Broadcast Inverter := .bnone
  mech_buses : Broadcast MechBus := .bnone
  mech_splitters : Broadcast MechSplitter := .bnone
deriving DecidableEq, Repr

/-- The lane-`i` slice `engines[i], motors[i], inverters[i],
mech_splitters[i], mech_buses[i]` (mech.py lines 160-161). -/
def MechPowerElements.lane (m : MechPowerElements) (i : ℕ) : LaneSpec :=
  { engine := m.engines.entry i
    motor := m.motors.entry i
    inverter := m.inverters.entry i
    mech_bus := m.mech_buses.entry i
    mech_splitter := m.mech_splitters.entry i }

/-- The per-lane view over `n` thrust groups. -/
def MechPowerElements.lanes (m : MechPowerElements) (n : ℕ) : List LaneSpec :=
  (List.range n).map m.lane

/-- `PropSysArch` (architecture.py): the three layers. -/
structure PropSysArch where
  thrust : ThrustGenElements
  mech : MechPowerElements
  electric : Option ElectricPowerElements := none
deriving DecidableEq, Repr

/-- Errors raised during `DynamicPropulsionArchitecture.setup`. -/
inductive BuildError where
  /-- thrust.py: `Nr of props (%d) not the same as gearboxes (%d)` -/
  | gearboxMismatch (nProps nGearboxes : ℕ)
  | mechErr (e : MechError)
  | elecErr (e : ElecError)
  /-- arch_group.py line 124: `Electrical power generation is needed but no
  ElectricPowerElements is defined!` -/
  | elecNeededButMissing
deriving DecidableEq, Repr

/-- `create_thrust_groups` (elements/thrust.py): checks the gearbox list
length against the propeller list and creates one `thrust<i+1>` group per
propeller. The thrust-chain internals (propeller, optional gearbox,
weight sum) are not referenced by any claim and only the group names are
recorded. -/
def create_thrust_groups (t : ThrustGenElements) : Except BuildError (List String) :=
  match t.gearboxes with
  | some gs =>
    if gs.length ≠ t.propellers.length then
      .error (.gearboxMismatch t.propellers.length gs.length)
    else
      .ok ((List.range t.propellers.length).map (fun i => "thrust" ++ toString (i + 1)))
  | none =>
    .ok ((List.range t.propellers.length).map (fun i => "thrust" ++ toString (i + 1)))

/-- The result of `DynamicPropulsionArchitecture.setup`. -/
structure SetupOut where
  thrust_groups : List String
  mech : MechOut
  elec : Option ElecOut
  soc_inputs : List String
  soc_sum_kind : SumKind
deriving DecidableEq, Repr

/-- `DynamicPropulsionArchitecture.setup` (arch_group.py lines 81-157):
thrust groups, then the mechanical group; if electric power generation is
needed the electrical spec must be present (line 124) and is built; the
top-level `SOC` output is the aggregate sum over the electrical group's
`SOC` output when one exists and over an empty list otherwise
(lines 131 and 152). -/
def DynamicPropulsionArchitecture_setup (psa : PropSysArch) (nn : ℕ) :
    Except BuildError SetupOut :=
  match create_thrust_groups psa.thrust with
  | .error err => .error err
  | .ok tgs =>
    match create_mech_group (psa.mech.lanes psa.thrust.propellers.length) nn with
    | .error err => .error (.mechErr err)
    | .ok mout =>
      if mout.electric_power_needed then
        match psa.electric with
        | none => .error .elecNeededButMissing
        | some ep =>
          match create_electric_group ep nn with
          | .error err => .error (.elecErr err.2)
          | .ok eout =>
            .ok { thrust_groups := tgs, mech := mout, elec := some eout
                  soc_inputs := ["elec.SOC"]
                  soc_sum_kind := sumKind 1 }
      else
        .ok { thrust_groups := tgs, mech := mout, elec := none
              soc_inputs := []
              soc_sum_kind := sumKind 0 }

/-! ## Helper lemmas -/

/-- `create_output_sum_value` always coincides with the elementwise sum of
its inputs (the zero- and one-input special cases agree with the sum). -/
theorem create_output_sum_value_eq_sum (inputs : List Signal) (k : ℕ) :
    create_output_sum_value inputs k = (inputs.map (fun s => s k)).sum := by
  match inputs with
  | [] => simp [create_output_sum_value]
  | [x] => simp [create_output_sum_value]
  | x :: y :: xs => simp [create_output_sum_value]

/-- A successful lane build has an empty electrical-load list exactly when
the lane has no motor (a motor contributes `elec_load` or, through an
inverter, `elec_power_in`; the other shapes contribute nothing). -/
theorem build_mech_lane_elec_empty_iff (i : ℕ) (ls : LaneSpec) (nn : ℕ) (lo : LaneOut)
    (h : build_mech_lane i ls nn = .ok lo) :
    lo.electric_load_outputs = [] ↔ ls.motor = none := by
  rcases ls with ⟨eng, mot, inv, bus, spl⟩
  rcases eng with _ | e <;> rcases mot with _ | m
  · simp [build_mech_lane] at h
  · rcases inv with _ | iv <;>
      · simp only [build_mech_lane, Except.ok.injEq] at h
        subst h
        simp [motorOnlyLaneOut]
  · rcases inv with _ | iv
    · simp only [build_mech_lane, Except.ok.injEq] at h
      subst h
      simp [engineOnlyLaneOut]
    · simp [build_mech_lane] at h
  · rcases bus with _ | bu <;> rcases spl with _ | sp
    · simp [build_mech_lane] at h
    · simp [build_mech_lane] at h
    · simp [build_mech_lane] at h
    · simp only [build_mech_lane, Except.ok.injEq] at h
      subst h
      rcases inv with _ | iv <;> simp [hybridLaneOut]

/-- A successful `build_lanes` run returns one output per lane. -/
theorem build_lanes_length (lanes : List LaneSpec) :
    ∀ (k nn : ℕ) (los : List LaneOut), build_lanes nn lanes k = .ok los →
      los.length = lanes.length := by
  induction lanes with
  | nil =>
    intro k nn los h
    simp only [build_lanes, Except.ok.injEq] at h
    subst h; rfl
  | cons ls rest ih =>
    intro k nn los h
    simp only [build_lanes] at h
    cases hb : build_mech_lane k ls nn with
    | error err => rw [hb] at h; exact absurd h (by simp)
    | ok lo =>
      rw [hb] at h
      cases hr : build_lanes nn rest (k + 1) with
      | error err => rw [hr] at h; exact absurd h (by simp)
      | ok los' =>
        rw [hr] at h
        simp only [Except.ok.injEq] at h
        subst h
        simp [ih (k + 1) nn los' hr]

/-- The `i`-th output of a successful `build_lanes` run is the build of the
`i`-th lane at shifted index `k + i`. -/
theorem build_lanes_get (lanes : List LaneSpec) :
    ∀ (k nn : ℕ) (los : List LaneOut), build_lanes nn lanes k = .ok los →
      ∀ (i : ℕ) (h : i < los.length) (h' : i < lanes.length),
        build_mech_lane (k + i) (lanes.get ⟨i, h'⟩) nn = .ok (los.get ⟨i, h⟩) := by
  induction lanes with
  | nil =>
    intro k nn los h i hi hi'
    exact absurd hi' (by simp)
  | cons ls rest ih =>
    intro k nn los h i hi hi'
    simp only [build_lanes] at h
    cases hb : build_mech_lane k ls nn with
    | error err => rw [hb] at h; exact absurd h (by simp)
    | ok lo =>
      rw [hb] at h
      cases hr : build_lanes nn rest (k + 1) with
      | error err => rw [hr] at h; exact absurd h (by simp)
      | ok los' =>
        rw [hr] at h
        simp only [Except.ok.injEq] at h
        subst h
        cases i with
        | zero => simpa using hb
        | succ j =>
          have hj : j < los'.length := by simpa using hi
          have hj' : j < rest.length := by simpa using hi'
          have := ih (k + 1) nn los' hr j hj hj'
          simpa [Nat.add_assoc, Nat.add_comm 1 j] using this

/-- The concatenated electrical-load outputs of a successful lane loop are
empty exactly when no lane has a motor. -/
theorem build_lanes_elec_empty_iff (lanes : List LaneSpec) :
    ∀ (k nn : ℕ) (los : List LaneOut), build_lanes nn lanes k = .ok los →
      (((los.map (fun lo => lo.electric_load_outputs)).flatten = []) ↔
        ∀ ls ∈ lanes, ls.motor = none) := by
  induction lanes with
  | nil =>
    intro k nn los h
    simp only [build_lanes, Except.ok.injEq] at h
    subst h; simp
  | cons ls rest ih =>
    intro k nn los h
    simp only [build_lanes] at h
    cases hb : build_mech_lane k ls nn with
    | error err => rw [hb] at h; exact absurd h (by simp)
    | ok lo =>
      rw [hb] at h
      cases hr : build_lanes nn rest (k + 1) with
      | error err => rw [hr] at h; exact absurd h (by simp)
      | ok los' =>
        rw [hr] at h
        simp only [Except.ok.injEq] at h
        subst h
        simp only [List.map_cons, List.flatten_cons, List.append_eq_nil,
          List.mem_cons]
        rw [build_mech_lane_elec_empty_iff k ls nn lo hb, ih (k + 1) nn los' hr]
        constructor
        · rintro ⟨h1, h2⟩ x hx
          rcases hx with rfl | hx
          · exact h1
          · exact h2 x hx
        · intro hall
          exact ⟨hall ls (Or.inl rfl), fun x hx => hall x (Or.inr hx)⟩

/-- The `electric_power_needed` flag of a successful mechanical build is
true exactly when some lane has a motor. -/
theorem mech_flag_iff (lanes : List LaneSpec) (nn : ℕ) (out : MechOut)
    (h : create_mech_group lanes nn = .ok out) :
    out.electric_power_needed = true ↔ ∃ ls ∈ lanes, ls.motor ≠ none := by
  simp only [create_mech_group] at h
  cases hb : build_lanes nn lanes 0 with
  | error err => rw [hb] at h; exact absurd h (by simp)
  | ok los =>
    rw [hb] at h
    simp only [Except.ok.injEq] at h
    subst h
    have hiff := build_lanes_elec_empty_iff lanes 0 nn los hb
    simp only [decide_eq_true_eq, List.length_pos_iff_ne_nil]
    constructor
    · intro hne
      by_contra hno
      push_neg at hno
      exact hne (hiff.mpr (fun ls hls => hno ls hls))
    · rintro ⟨ls, hls, hm⟩ hnil
      exact hm (hiff.mp hnil ls hls)

/-- With no motor on any lane the flag is false. -/
theorem mech_flag_false (lanes : List LaneSpec) (nn : ℕ) (out : MechOut)
    (h : create_mech_group lanes nn = .ok out)
    (hall : ∀ ls ∈ lanes, ls.motor = none) :
    out.electric_power_needed = false := by
  by_contra hne
  have htrue : out.electric_power_needed = true := by
    cases hfl : out.electric_power_needed
    · exact absurd hfl hne
    · rfl
  obtain ⟨ls, hls, hm⟩ := (mech_flag_iff lanes nn out h).mp htrue
  exact hm (hall ls hls)

/-- `create_thrust_groups` can only fail with a gearbox-count mismatch. -/
theorem create_thrust_groups_error (t : ThrustGenElements) (err : BuildError)
    (h : create_thrust_groups t = .error err) :
    ∃ np ng, err = .gearboxMismatch np ng := by
  cases hg : t.gearboxes with
  | none => simp [create_thrust_groups, hg] at h
  | some gs =>
    simp only [create_thrust_groups, hg] at h
    split at h
    · cases h
      exact ⟨t.propellers.length, gs.length, rfl⟩
    · cases h

/-- A successful `create_mech_group` stores exactly the lane loop's
outputs in `lane_outs`. -/
theorem create_mech_group_lane_outs (lanes : List LaneSpec) (nn : ℕ) (out : MechOut)
    (h : create_mech_group lanes nn = .ok out) :
    build_lanes nn lanes 0 = .ok out.lane_outs := by
  simp only [create_mech_group] at h
  cases hb : build_lanes nn lanes 0 with
  | error err => rw [hb] at h; exact absurd h (by simp)
  | ok los =>
    rw [hb] at h
    simp only [Except.ok.injEq] at h
    subst h
    rfl

/-- Every connection of every lane output is among the group's
connections. -/
theorem create_mech_group_conn_of_lane (lanes : List LaneSpec) (nn : ℕ) (out : MechOut)
    (h : create_mech_group lanes nn = .ok out)
    (lo : LaneOut) (hlo : lo ∈ out.lane_outs) (c : Conn) (hc : c ∈ lo.conns) :
    c ∈ out.conns := by
  simp only [create_mech_group] at h
  cases hb : build_lanes nn lanes 0 with
  | error err => rw [hb] at h; exact absurd h (by simp)
  | ok los =>
    rw [hb] at h
    simp only [Except.ok.injEq] at h
    subst h
    simp only [List.mem_append, List.mem_flatten]
    exact Or.inl (Or.inl (Or.inl ⟨lo.conns, List.mem_map_of_mem _ hlo, hc⟩))

/-! ## Claim theorems -/

/-- C7: `create_output_sum` with zero inputs produces a constant zero as a
source node (not a sum); with exactly one input its output equals that
input unchanged via a pass-through with no arithmetic node; with more than
one input its output is the elementwise sum of all inputs, each input
wired in order to the uniquely named port `sum_input_i`, and the output is
independent of the order of the inputs. -/
theorem claim_C7 :
    ((∀ k : ℕ, create_output_sum_value [] k = 0) ∧ sumKind 0 = .zeroSource)
    ∧ ((∀ x : Signal, create_output_sum_value [x] = x) ∧ sumKind 1 = .passThrough)
    ∧ (∀ inputs : List Signal, 1 < inputs.length →
        (∀ k : ℕ, create_output_sum_value inputs k = (inputs.map (fun s => s k)).sum)
        ∧ sumKind inputs.length = .addComp)
    ∧ (∀ (output : String) (names : List String),
        (create_output_sum_conns output names).length = names.length
        ∧ ∀ (i : ℕ) (h : i < (create_output_sum_conns output names).length)
            (h' : i < names.length),
          (create_output_sum_conns output names).get ⟨i, h⟩ =
            ⟨names.get ⟨i, h'⟩, output ++ "_sum." ++ ("sum_input_" ++ toString i)⟩)
    ∧ (∀ l1 l2 : List Signal, l1.Perm l2 →
        create_output_sum_value l1 = create_output_sum_value l2) := by
  refine ⟨⟨fun k => rfl, rfl⟩, ⟨fun x => rfl, rfl⟩, ?_, ?_, ?_⟩
  · intro inputs h
    refine ⟨fun k => create_output_sum_value_eq_sum inputs k, ?_⟩
    match inputs, h with
    | x :: y :: xs, _ => simp [sumKind]
  · intro output names
    constructor
    · simp [create_output_sum_conns, sum_params]
    · intro i h h'
      simp only [create_output_sum_conns, sum_params, List.get_eq_getElem,
        List.getElem_map, List.getElem_zip, List.getElem_range]
  · intro l1 l2 hp
    funext k
    rw [create_output_sum_value_eq_sum, create_output_sum_value_eq_sum]
    exact List.Perm.sum_eq (hp.map _)

/-- Witness for C7 at concrete inputs. -/
theorem claim_C7_witness :
    (1 < ([(fun _ => (2:ℚ)), (fun _ => (3:ℚ))] : List Signal).length
      ∧ create_output_sum_value [(fun _ => (2:ℚ)), (fun _ => (3:ℚ))] 0 = 5)
    ∧ (0 < (create_output_sum_conns ("fuel_flow") ["a", "b"]).length
      ∧ (create_output_sum_conns ("fuel_flow") ["a", "b"]).get
          ⟨0, by decide⟩ = ⟨"a", "fuel_flow" ++ "_sum." ++ ("sum_input_" ++ toString 0)⟩)
    ∧ (([(fun _ => (2:ℚ)), (fun _ => (3:ℚ))] : List Signal).Perm
        [(fun _ => (3:ℚ)), (fun _ => (2:ℚ))]
      ∧ create_output_sum_value [(fun _ => (2:ℚ)), (fun _ => (3:ℚ))] =
        create_output_sum_value [(fun _ => (3:ℚ)), (fun _ => (2:ℚ))]) := by
  refine ⟨⟨by decide, ?_⟩, ⟨by decide, ?_⟩, List.Perm.swap _ _ _, ?_⟩
  · have h := (claim_C7.2.2.1 [(fun _ => (2:ℚ)), (fun _ => (3:ℚ))] (by decide)).1 0
    rw [h]; norm_num
  · exact (claim_C7.2.2.2.1 ("fuel_flow") ["a", "b"]).2 0 (by decide) (by decide)
  · exact claim_C7.2.2.2.2 _ _ (List.Perm.swap _ _ _)

/-- C8: every lane resolves to exactly one of the three shapes —
engine-only, motor-only, or engine+motor+bus+splitter — and any other
combination raises at construction time: neither engine nor motor on a
lane, an engine and a motor without a mechanical bus or splitter, and an
inverter without a motor are errors, never silent defaults. -/
theorem claim_C8 :
    (∀ (i nn : ℕ) (inv : Option Inverter) (b : Option MechBus) (s : Option MechSplitter),
      build_mech_lane i ⟨none, none, inv, b, s⟩ nn = .error (.engineOrMotorRequired i))
    ∧ (∀ (i nn : ℕ) (e : Engine) (m : Motor) (inv : Option Inverter) (s : Option MechSplitter),
      build_mech_lane i ⟨some e, some m, inv, none, s⟩ nn = .error .busAndSplitterRequired)
    ∧ (∀ (i nn : ℕ) (e : Engine) (m : Motor) (inv : Option Inverter) (b : MechBus),
      build_mech_lane i ⟨some e, some m, inv, some b, none⟩ nn = .error .busAndSplitterRequired)
    ∧ (∀ (i nn : ℕ) (e : Engine) (inv : Inverter) (b : Option MechBus) (s : Option MechSplitter),
      build_mech_lane i ⟨some e, none, some inv, b, s⟩ nn = .error .inverterWithoutMotor)
    ∧ (∀ (i nn : ℕ) (e : Engine) (b : Option MechBus) (s : Option MechSplitter),
      build_mech_lane i ⟨some e, none, none, b, s⟩ nn = .ok (engineOnlyLaneOut i e nn)
      ∧ (engineOnlyLaneOut i e nn).shape = .engineOnly)
    ∧ (∀ (i nn : ℕ) (m : Motor) (inv : Option Inverter) (b : Option MechBus)
        (s : Option MechSplitter),
      build_mech_lane i ⟨none, some m, inv, b, s⟩ nn = .ok (motorOnlyLaneOut i m inv nn)
      ∧ (motorOnlyLaneOut i m inv nn).shape = .motorOnly)
    ∧ (∀ (i nn : ℕ) (e : Engine) (m : Motor) (inv : Option Inverter) (b : MechBus)
        (s : MechSplitter),
      build_mech_lane i ⟨some e, some m, inv, some b, some s⟩ nn =
        .ok (hybridLaneOut i e m inv b s nn)
      ∧ (hybridLaneOut i e m inv b s nn).shape = .parallelHybrid) := by
  refine ⟨?_, ?_, ?_, ?_, ?_, ?_, ?_⟩
  · intro i nn inv b s; cases b <;> cases s <;> rfl
  · intro i nn e m inv s; cases s <;> rfl
  · intro i nn e m inv b; rfl
  · intro i nn e inv b s; rfl
  · intro i nn e b s; exact ⟨rfl, rfl⟩
  · intro i nn m inv b s; exact ⟨rfl, rfl⟩
  · intro i nn e m inv b s; exact ⟨rfl, rfl⟩

/-- C2 counterexample: supplying a splitter without a dc_bus does raise the
configuration error, but NOT before any node is created — at the moment the
error is raised the `elec` group and its input collector already exist, so
a partial graph is observable on the parent group. -/
theorem claim_C2_counterexample :
    create_electric_group
      { dc_bus := none, splitter := some { name := ("splitter") },
        batteries := .bnone, engines_dc := none, engines_ac := false } 5 =
      .error ([.group ("elec"), .inCollect ("elec.elec_in_collect")],
        .dcBusRequiredWithSplitter)
    ∧ ([Node.group ("elec"), Node.inCollect ("elec.elec_in_collect")] : List Node) ≠ [] := by
  exact ⟨rfl, by decide⟩

/-- C2 (amended): `create_electric_group` raises a configuration error when
a splitter is supplied without a dc_bus, or with a dc_bus but without both
batteries and a DC engine chain, or when batteries is given as a length-1
list — but the error is raised only after the `elec` group, its input
collector, and any dc_bus (and, when a complete splitter configuration
precedes a length-1 battery list, the splitter nodes) have been created,
so a partial graph is observable; no battery, engine-chain or balance node
exists at the error point. -/
theorem claim_C2 :
    (∀ (s : ElecSplitter) (bats : BatteriesSpec) (engs : Option DCEngineChain)
        (ac : Bool) (nn : ℕ),
      create_electric_group
        { dc_bus := none, splitter := some s, batteries := bats,
          engines_dc := engs, engines_ac := ac } nn =
        .error ([.group ("elec"), .inCollect ("elec.elec_in_collect")],
          .dcBusRequiredWithSplitter))
    ∧ (∀ (b : DCBus) (s : ElecSplitter) (bats : BatteriesSpec) (ac : Bool) (nn : ℕ),
      create_electric_group
        { dc_bus := some b, splitter := some s, batteries := bats,
          engines_dc := none, engines_ac := ac } nn =
        .error ([.group ("elec"), .inCollect ("elec.elec_in_collect"),
          .dcBusComp ("elec." ++ b.name)], .enginesAndBatteriesRequiredWithSplitter))
    ∧ (∀ (b : DCBus) (s : ElecSplitter) (ch : DCEngineChain) (ac : Bool) (nn : ℕ),
      create_electric_group
        { dc_bus := some b, splitter := some s, batteries := .bnone,
          engines_dc := some ch, engines_ac := ac } nn =
        .error ([.group ("elec"), .inCollect ("elec.elec_in_collect"),
          .dcBusComp ("elec." ++ b.name)], .enginesAndBatteriesRequiredWithSplitter))
    ∧ (∀ (bat : Batteries) (engs : Option DCEngineChain) (ac : Bool) (nn : ℕ),
      create_electric_group
        { dc_bus := none, splitter := none, batteries := .blist [bat],
          engines_dc := engs, engines_ac := ac } nn =
        .error ([.group ("elec"), .inCollect ("elec.elec_in_collect")],
          .singleBatteryListError))
    ∧ (∀ (b : DCBus) (bat : Batteries) (engs : Option DCEngineChain) (ac : Bool) (nn : ℕ),
      create_electric_group
        { dc_bus := some b, splitter := none, batteries := .blist [bat],
          engines_dc := engs, engines_ac := ac } nn =
        .error ([.group ("elec"), .inCollect ("elec.elec_in_collect"),
          .dcBusComp ("elec." ++ b.name)], .singleBatteryListError))
    ∧ (∀ (b : DCBus) (s : ElecSplitter) (bat : Batteries) (ch : DCEngineChain)
        (ac : Bool) (nn : ℕ),
      create_electric_group
        { dc_bus := some b, splitter := some s, batteries := .blist [bat],
          engines_dc := some ch, engines_ac := ac } nn =
        .error ([.group ("elec"), .inCollect ("elec.elec_in_collect"),
          .dcBusComp ("elec." ++ b.name), .inCollect ("elec.splitter_in_collect"),
          .powerSplit ("elec." ++ s.name)], .singleBatteryListError)) := by
  refine ⟨?_, ?_, ?_, ?_, ?_, ?_⟩
  · intro s bats engs ac nn; rfl
  · intro b s bats ac nn; cases bats <;> rfl
  · intro b s ch ac nn; rfl
  · intro bat engs ac nn; rfl
  · intro b bat engs ac nn; rfl
  · intro b s bat ch ac nn; rfl

/-- C5: a turboelectric configuration (DC engine chain and dc_bus, no
batteries, no splitter) does NOT complete assembly: after the engine,
generator and rectifier have been created and wired, electric.py line 252
reads the local variable `eng_chain_req_power_out`, which is assigned only
inside the splitter branch, so the build stops with a Python
`UnboundLocalError` instead of balancing the chain against the whole
electrical load. The repo's own `evaluator/turboelectric.py` builds exactly
this configuration. -/
theorem claim_C5 :
    ∀ (b : DCBus) (ch : DCEngineChain) (nn : ℕ),
      create_electric_group
        { dc_bus := some b, splitter := none, batteries := .bnone,
          engines_dc := some ch, engines_ac := false } nn =
        .error ([.group ("elec"), .inCollect ("elec.elec_in_collect"),
          .dcBusComp ("elec." ++ b.name), .inCollect ("elec.eng_in_collect"),
          .turboshaft ("elec." ++ ch.engine.name),
          .generatorComp ("elec." ++ ch.generator.name),
          .rectifierComp ("elec." ++ ch.rectifier.name)],
          .pythonNameError ("eng_chain_req_power_out")) := by
  intro b ch nn; rfl

/-- C6 counterexample: a pure-battery layer (batteries, no splitter, no
engine chain) does NOT assemble without a dc_bus — electric.py line 195
raises a `RuntimeWarning` after creating the battery, so assembly only
succeeds with a bus. -/
theorem claim_C6_counterexample :
    create_electric_group
      { dc_bus := none, splitter := none, batteries := .single { name := ("bat_pack") },
        engines_dc := none, engines_ac := false } 5 =
      .error ([.group ("elec"), .inCollect ("elec.elec_in_collect"),
        .inCollect ("elec.bat_in_collect"), .batteryComp ("elec.bat_pack")],
        .batteryWithoutDCBusWarning) := rfl

/-- C6 (amended): a pure-battery electrical layer assembles only WITH a
dc_bus: the incoming electrical load is wired through the bus straight to
the battery (`<bus>.elec_power_in → <battery>.elec_load`) and no balance
node is created; without a dc_bus, `create_electric_group` raises a
`RuntimeWarning` (electric.py line 195) after the battery node was
created, instead of succeeding. -/
theorem claim_C6 :
    (∀ (b : DCBus) (bat : Batteries) (nn : ℕ),
      ∃ out : ElecOut,
        create_electric_group
          { dc_bus := some b, splitter := none, batteries := .single bat,
            engines_dc := none, engines_ac := false } nn = .ok out
        ∧ (⟨b.name ++ ".elec_power_in", bat.name ++ ".elec_load"⟩ : Conn) ∈ out.conns
        ∧ (⟨"mech.motors_elec_power", "elec." ++ (b.name ++ ".elec_power_out")⟩ : Conn)
            ∈ out.conns
        ∧ out.nodes.filter Node.isBalanceB = [])
    ∧ (∀ (bat : Batteries) (engs : Option DCEngineChain) (ac : Bool) (nn : ℕ),
      create_electric_group
        { dc_bus := none, splitter := none, batteries := .single bat,
          engines_dc := engs, engines_ac := ac } nn =
        .error ([.group ("elec"), .inCollect ("elec.elec_in_collect"),
          .inCollect ("elec.bat_in_collect"), .batteryComp ("elec." ++ bat.name)],
          .batteryWithoutDCBusWarning)) := by
  constructor
  · intro b bat nn
    refine ⟨_, rfl, ?_, ?_, rfl⟩
    · simp [elec_stage_load, create_output_sum_conns]
    · simp [elec_stage_load, create_output_sum_conns]
  · intro bat engs ac nn; rfl

/-- C1: every element whose throttle comes from the Balance Utility — the
engine and the motor of a parallel-hybrid lane, and the DC engine chain of
the electrical layer — gets exactly one balance node with one unknown per
analysis point (`n = nn`), initial guess `0.5`, whose residual is
`available(throttle) − required` (zero exactly when available equals
required at that point), and whose solved throttle is wired into that
element's throttle input port. -/
theorem claim_C1 :
    (∀ (i : ℕ) (e : Engine) (m : Motor) (inv : Option Inverter) (b : MechBus)
        (s : MechSplitter) (nn : ℕ),
      build_mech_lane i ⟨some e, some m, inv, some b, some s⟩ nn =
        .ok (hybridLaneOut i e m inv b s nn)
      ∧ (hybridLaneOut i e m inv b s nn).nodes.filter Node.isBalanceB =
        [.balanceComp (laneGroupName i ++ "." ++ e.name ++ "_throttle_balance")
           e.name nn (1/2) (e.name ++ ".shaft_power_out") (s.name ++ ".power_out_B"),
         .balanceComp (laneGroupName i ++ "." ++ m.name ++ "_throttle_balance")
           m.name nn (1/2) (m.name ++ ".shaft_power_out") (s.name ++ ".power_out_A")]
      ∧ (⟨laneGroupName i ++ "." ++ e.name ++ "_throttle_balance" ++ ".throttle",
           laneGroupName i ++ "." ++ e.name ++ ".throttle"⟩ : Conn)
          ∈ (hybridLaneOut i e m inv b s nn).conns
      ∧ (⟨laneGroupName i ++ "." ++ m.name ++ "_throttle_balance" ++ ".throttle",
           laneGroupName i ++ "." ++ m.name ++ ".throttle"⟩ : Conn)
          ∈ (hybridLaneOut i e m inv b s nn).conns)
    ∧ (∀ (b : DCBus) (s : ElecSplitter) (bat : Batteries) (ch : DCEngineChain) (nn : ℕ),
      ∃ out : ElecOut,
        create_electric_group
          { dc_bus := some b, splitter := some s, batteries := .single bat,
            engines_dc := some ch, engines_ac := false } nn = .ok out
        ∧ out.nodes.filter Node.isBalanceB =
          [.balanceComp ("elec" ++ "." ++ ch.engine.name ++ "_throttle_balance")
             ch.engine.name nn (1/2) (ch.rectifier.name ++ ".elec_power_out")
             (s.name ++ ".power_out_B")]
        ∧ (⟨"elec" ++ "." ++ ch.engine.name ++ "_throttle_balance" ++ ".throttle",
             "elec" ++ "." ++ ch.engine.name ++ ".throttle"⟩ : Conn) ∈ out.conns)
    ∧ (∀ (avail req : Signal) (k : ℕ),
        balance_residual avail req k = 0 ↔ avail k = req k) := by
  refine ⟨?_, ?_, ?_⟩
  · intro i e m inv b s nn
    refine ⟨rfl, ?_, ?_, ?_⟩
    · rcases inv with _ | inv <;> by_cases hi : i = 1 <;>
        simp [hybridLaneOut, throttle_from_power_balance, hi, Node.isBalanceB,
          List.filter_append]
    · rcases inv with _ | inv <;> by_cases hi : i = 1 <;>
        simp [hybridLaneOut, throttle_from_power_balance, hi]
    · rcases inv with _ | inv <;> by_cases hi : i = 1 <;>
        simp [hybridLaneOut, throttle_from_power_balance, hi]
  · intro b s bat ch nn
    refine ⟨_, rfl, rfl, ?_⟩
    simp [elec_stage_load, throttle_from_power_balance, create_output_sum_conns]
  · intro avail req k
    constructor
    · intro h; have := sub_eq_zero.mp h; exact this
    · intro h; simp [balance_residual, h]

/-- C9: in a parallel-hybrid lane the total lane shaft power is the global
throttle times a combined rated-power signal: the lane builds the
`tot_shaft_power = throttle_vec * total_rated_power` ExecComp fed by the
global throttle and by the `sum_rated_power` ExecComp, whose expression is
`engine_rated_power + active_flag * motor_rated_power` on the OEI lane
(index 1, with the scalified `propulsor_active` flag wired into
`active_flag`) and `engine_rated_power + motor_rated_power` on every other
lane; evaluating that wiring gives
`throttle × (engine_rating + propulsor_active × motor_rating)` on lane 1
and `throttle × (engine_rating + motor_rating)` elsewhere. -/
theorem claim_C9 :
    ∀ (i : ℕ) (e : Engine) (m : Motor) (inv : Option Inverter) (b : MechBus)
      (s : MechSplitter) (nn : ℕ),
      build_mech_lane i ⟨some e, some m, inv, some b, some s⟩ nn =
        .ok (hybridLaneOut i e m inv b s nn)
      ∧ Node.execComp ("mech." ++ laneGroupName i ++ ".eng_motor_shaft_power")
          ("tot_shaft_power = throttle_vec * total_rated_power")
          ∈ (hybridLaneOut i e m inv b s nn).nodes
      ∧ (if i = 1 then
          Node.execComp ("mech." ++ laneGroupName i ++ ".sum_rated_power")
            ("tot_rated_power = engine_rated_power + active_flag * motor_rated_power")
            ∈ (hybridLaneOut i e m inv b s nn).nodes
          ∧ (⟨"scalify_active_input.propulsor_active_scalar",
              "sum_rated_power.active_flag"⟩ : Conn)
            ∈ (hybridLaneOut i e m inv b s nn).conns
        else
          Node.execComp ("mech." ++ laneGroupName i ++ ".sum_rated_power")
            ("tot_rated_power = engine_rated_power + motor_rated_power")
            ∈ (hybridLaneOut i e m inv b s nn).nodes)
      ∧ (⟨"throttle_pass", laneGroupName i ++ ".eng_motor_shaft_power.throttle_vec"⟩ : Conn)
          ∈ (hybridLaneOut i e m inv b s nn).conns
      ∧ (⟨"sum_rated_power.tot_rated_power", "eng_motor_shaft_power.total_rated_power"⟩ : Conn)
          ∈ (hybridLaneOut i e m inv b s nn).conns
      ∧ ∀ (throttle active : Signal) (k : ℕ),
          hybrid_tot_shaft_power i throttle active e.power_rating m.power_rating k =
            throttle k *
              (if i = 1 then e.power_rating + active 0 * m.power_rating
               else e.power_rating + m.power_rating) := by
  intro i e m inv b s nn
  refine ⟨rfl, ?_, ?_, ?_, ?_, ?_⟩
  · rcases inv with _ | inv <;> by_cases hi : i = 1 <;>
      simp [hybridLaneOut, throttle_from_power_balance, hi]
  · by_cases hi : i = 1
    · rw [if_pos hi]
      constructor <;> (rcases inv with _ | inv <;>
        simp [hybridLaneOut, throttle_from_power_balance, hi])
    · rw [if_neg hi]
      rcases inv with _ | inv <;>
        simp [hybridLaneOut, throttle_from_power_balance, hi]
  · rcases inv with _ | inv <;> by_cases hi : i = 1 <;>
      simp [hybridLaneOut, throttle_from_power_balance, hi]
  · rcases inv with _ | inv <;> by_cases hi : i = 1 <;>
      simp [hybridLaneOut, throttle_from_power_balance, hi]
  · intro throttle active k
    by_cases hi : i = 1 <;>
      simp [hybrid_tot_shaft_power, exec_eng_motor_shaft_power,
        exec_sum_rated_power_oei, exec_sum_rated_power, scalify_component, hi]

/-- C3: `create_mech_group` reports `electric_power_needed = true` exactly
when some lane contains a motor; the top-level assembler instantiates the
electrical group exactly when that flag is true; and with zero motors the
state-of-charge output is the zero-input aggregate (a constant zero
vector) and no electrical configuration error can be raised, whatever
`ElectricPowerElements` spec was supplied. -/
theorem claim_C3 :
    (∀ (lanes : List LaneSpec) (nn : ℕ) (out : MechOut),
      create_mech_group lanes nn = .ok out →
      (out.electric_power_needed = true ↔ ∃ ls ∈ lanes, ls.motor ≠ none))
    ∧ (∀ (psa : PropSysArch) (nn : ℕ) (sout : SetupOut),
      DynamicPropulsionArchitecture_setup psa nn = .ok sout →
      (sout.elec.isSome ↔ sout.mech.electric_power_needed = true))
    ∧ (∀ (psa : PropSysArch) (nn : ℕ),
      (∀ ls ∈ psa.mech.lanes psa.thrust.propellers.length, ls.motor = none) →
      (∀ ee : ElecError,
        DynamicPropulsionArchitecture_setup psa nn ≠ .error (.elecErr ee))
      ∧ (∀ sout : SetupOut, DynamicPropulsionArchitecture_setup psa nn = .ok sout →
          sout.elec = none ∧ sout.soc_inputs = [] ∧ sout.soc_sum_kind = .zeroSource
          ∧ ∀ k : ℕ, create_output_sum_value [] k = 0)) := by
  refine ⟨mech_flag_iff, ?_, ?_⟩
  · intro psa nn sout h
    cases ht : create_thrust_groups psa.thrust with
    | error err => simp [DynamicPropulsionArchitecture_setup, ht] at h
    | ok tgs =>
      cases hm : create_mech_group (psa.mech.lanes psa.thrust.propellers.length) nn with
      | error err => simp [DynamicPropulsionArchitecture_setup, ht, hm] at h
      | ok mout =>
        cases hfl : mout.electric_power_needed with
        | false =>
          simp only [DynamicPropulsionArchitecture_setup, ht, hm, hfl,
            Bool.false_eq_true, if_false, Except.ok.injEq] at h
          subst h
          simp [hfl]
        | true =>
          cases he : psa.electric with
          | none =>
            simp [DynamicPropulsionArchitecture_setup, ht, hm, hfl, he] at h
          | some ep =>
            cases hb : create_electric_group ep nn with
            | error err =>
              simp [DynamicPropulsionArchitecture_setup, ht, hm, hfl, he, hb] at h
            | ok eout =>
              simp only [DynamicPropulsionArchitecture_setup, ht, hm, hfl, he, hb,
                if_true, Except.ok.injEq] at h
              subst h
              simp [hfl]
  · intro psa nn hall
    constructor
    · intro ee
      cases ht : create_thrust_groups psa.thrust with
      | error err =>
        obtain ⟨np, ng, rfl⟩ := create_thrust_groups_error psa.thrust err ht
        simp [DynamicPropulsionArchitecture_setup, ht]
      | ok tgs =>
        cases hm : create_mech_group (psa.mech.lanes psa.thrust.propellers.length) nn with
        | error err => simp [DynamicPropulsionArchitecture_setup, ht, hm]
        | ok mout =>
          have hfl := mech_flag_false _ nn mout hm hall
          simp [DynamicPropulsionArchitecture_setup, ht, hm, hfl]
    · intro sout h
      cases ht : create_thrust_groups psa.thrust with
      | error err => simp [DynamicPropulsionArchitecture_setup, ht] at h
      | ok tgs =>
        cases hm : create_mech_group (psa.mech.lanes psa.thrust.propellers.length) nn with
        | error err => simp [DynamicPropulsionArchitecture_setup, ht, hm] at h
        | ok mout =>
          have hfl := mech_flag_false _ nn mout hm hall
          simp only [DynamicPropulsionArchitecture_setup, ht, hm, hfl,
            Bool.false_eq_true, if_false, Except.ok.injEq] at h
          subst h
          exact ⟨rfl, rfl, rfl, fun k => rfl⟩

/-- Witness for C3: a two-lane engine-only architecture with an (unused)
electrical spec supplied assembles without touching the electrical layer,
and its `SOC` aggregate is the zero-input constant. -/
theorem claim_C3_witness :
    (∃ out : MechOut,
      create_mech_group
        [⟨some { name := ("turboshaft") }, none, none, none, none⟩,
         ⟨some { name := ("turboshaft") }, none, none, none, none⟩] 3 = .ok out
      ∧ out.electric_power_needed = false)
    ∧ (∀ ls : LaneSpec,
        ls ∈ (PropSysArch.mk
          { propellers := [{ name := ("prop1") }, { name := ("prop2") }] }
          { engines := .single { name := ("turboshaft") } }
          (some { dc_bus := none, splitter := some { name := ("splitter") },
                  batteries := .bnone, engines_dc := none,
                  engines_ac := false })).mech.lanes 2 →
        ls.motor = none)
    ∧ (∀ ee : ElecError,
      DynamicPropulsionArchitecture_setup
        { thrust := { propellers := [{ name := ("prop1") }, { name := ("prop2") }] },
          mech := { engines := .single { name := ("turboshaft") } },
          electric := some { dc_bus := none, splitter := some { name := ("splitter") },
                             batteries := .bnone, engines_dc := none,
                             engines_ac := false } } 3 ≠
        .error (.elecErr ee)) := by
  refine ⟨⟨_, rfl, rfl⟩, by decide, ?_⟩
  intro ee
  exact ((claim_C3.2.2 _ 3 (by decide)).1 ee)

/-- C10: when the mechanical layer contains at least one motor (so
electrical power generation is needed) but `PropSysArch.electric` is
`None`, `DynamicPropulsionArchitecture.setup` raises the RuntimeError of
arch_group.py line 124 during assembly instead of producing a graph with
an unconnected electrical load. -/
theorem claim_C10 (psa : PropSysArch) (nn : ℕ) (tgs : List String) (mout : MechOut)
    (helec : psa.electric = none)
    (ht : create_thrust_groups psa.thrust = .ok tgs)
    (hm : create_mech_group (psa.mech.lanes psa.thrust.propellers.length) nn = .ok mout)
    (hmot : ∃ ls ∈ psa.mech.lanes psa.thrust.propellers.length, ls.motor ≠ none) :
    DynamicPropulsionArchitecture_setup psa nn = .error .elecNeededButMissing := by
  have hfl : mout.electric_power_needed = true := (mech_flag_iff _ nn mout hm).mpr hmot
  simp [DynamicPropulsionArchitecture_setup, ht, hm, hfl, helec]

/-- Witness for C10: a two-propeller all-motor architecture with no
electrical layer spec. -/
theorem claim_C10_witness :
    DynamicPropulsionArchitecture_setup
      { thrust := { propellers := [{ name := ("prop1") }, { name := ("prop2") }] },
        mech := { motors := .single { name := ("elec_motor") } },
        electric := none } 3 = .error .elecNeededButMissing := by
  exact claim_C10 _ 3 ["thrust1", "thrust2"] _ rfl rfl rfl
    ⟨⟨none, some { name := ("elec_motor") }, none, none, none⟩, by decide, by decide⟩

/-- C4: in an engine-only configuration with at least two lanes, the
engine of the lane at index 1 — and only that lane — receives the global
throttle multiplied elementwise by the `propulsor_active` flag (the
`failedengine` multiply component is inserted and wired between the
throttle input and the engine), while every other lane's engine, third
and later lanes included, receives the global throttle directly and has no
multiply component. -/
theorem claim_C4 (lanes : List LaneSpec) (nn : ℕ) (out : MechOut)
    (h : create_mech_group lanes nn = .ok out)
    (_h2 : 2 ≤ lanes.length)
    (hall : ∀ ls ∈ lanes, ls.motor = none ∧ ls.inverter = none) :
    ∀ (i : ℕ) (hi : i < lanes.length) (e : Engine),
      (lanes.get ⟨i, hi⟩).engine = some e →
      ∀ hj : i < out.lane_outs.length,
      (i = 1 →
        (⟨"throttle_pass", "mech2.failedengine.throttle_vec"⟩ : Conn) ∈ out.conns
        ∧ (⟨"propulsor_active_pass", "mech2.failedengine.propulsor_active_flag"⟩ : Conn)
            ∈ out.conns
        ∧ (⟨"failedengine.eng2throttle", e.name ++ ".throttle"⟩ : Conn) ∈ out.conns
        ∧ Node.multiplyComp ("mech.mech2.failedengine")
            ∈ (out.lane_outs.get ⟨i, hj⟩).nodes
        ∧ ∀ (t a : Signal) (k : ℕ), element_multiply [t, a] k = t k * a k)
      ∧ (i ≠ 1 →
        (⟨"throttle_pass", laneGroupName i ++ "." ++ e.name ++ ".throttle"⟩ : Conn)
            ∈ out.conns
        ∧ ∀ p : String,
            Node.multiplyComp p ∉ (out.lane_outs.get ⟨i, hj⟩).nodes) := by
  intro i hi e he hj
  have hlanes := create_mech_group_lane_outs lanes nn out h
  have hb := build_lanes_get lanes 0 nn _ hlanes i hj hi
  rw [Nat.zero_add] at hb
  obtain ⟨hmot, hinv⟩ := hall (lanes.get ⟨i, hi⟩) (List.get_mem lanes i hi)
  simp only [build_mech_lane, he, hmot, hinv, Except.ok.injEq] at hb
  constructor
  · intro h1
    subst h1
    refine ⟨?_, ?_, ?_, ?_, fun t a k => by simp [element_multiply]⟩
    · refine create_mech_group_conn_of_lane lanes nn out h _
        (List.get_mem out.lane_outs 1 hj) _ ?_
      rw [← hb]
      simp only [engineOnlyLaneOut, laneGroupName]
      simp
      decide
    · refine create_mech_group_conn_of_lane lanes nn out h _
        (List.get_mem out.lane_outs 1 hj) _ ?_
      rw [← hb]
      simp only [engineOnlyLaneOut, laneGroupName]
      simp
      decide
    · refine create_mech_group_conn_of_lane lanes nn out h _
        (List.get_mem out.lane_outs 1 hj) _ ?_
      rw [← hb]
      simp [engineOnlyLaneOut, laneGroupName]
    · rw [← hb]
      simp only [engineOnlyLaneOut, laneGroupName]
      simp
      decide
  · intro h1
    refine ⟨?_, ?_⟩
    · refine create_mech_group_conn_of_lane lanes nn out h _
        (List.get_mem out.lane_outs i hj) _ ?_
      rw [← hb]
      simp [engineOnlyLaneOut, h1]
    · intro p
      rw [← hb]
      simp [engineOnlyLaneOut, h1]

/-- Witness for C4: a three-lane engine-only configuration; lane 1 gets
the OEI multiplier, lane 2 (a third lane) gets the throttle directly. -/
theorem claim_C4_witness :
    ∃ out : MechOut,
      create_mech_group
        [⟨some { name := ("ts") }, none, none, none, none⟩,
         ⟨some { name := ("ts") }, none, none, none, none⟩,
         ⟨some { name := ("ts") }, none, none, none, none⟩] 2 = .ok out
      ∧ (⟨"throttle_pass", "mech2.failedengine.throttle_vec"⟩ : Conn) ∈ out.conns
      ∧ (⟨"failedengine.eng2throttle", "ts" ++ ".throttle"⟩ : Conn) ∈ out.conns
      ∧ (⟨"throttle_pass", laneGroupName 2 ++ "." ++ "ts" ++ ".throttle"⟩ : Conn)
          ∈ out.conns := by
  have hc := claim_C4
    [⟨some { name := ("ts") }, none, none, none, none⟩,
     ⟨some { name := ("ts") }, none, none, none, none⟩,
     ⟨some { name := ("ts") }, none, none, none, none⟩] 2 _ rfl
    (by decide) (by decide)
  refine ⟨_, rfl, ?_, ?_, ?_⟩
  · exact ((hc 1 (by decide) { name := ("ts") } rfl (by decide)).1 rfl).1
  · exact ((hc 1 (by decide) { name := ("ts") } rfl (by decide)).1 rfl).2.2.1
  · exact ((hc 2 (by decide) { name := ("ts") } rfl (by decide)).2 (by decide)).1

end OCBuilder
